import Mathlib

/-!
Verification of the AI-powered command terminal's agent core against its
specification.  The development shallowly embeds the relevant Python code
(`agent/dynamic_tools.py` and `agent/agent_core.py`) as executable Lean
definitions and proves the specified properties about them.

Python strings are sequences of code points, so string primitives
(`lower`, `strip`, `startswith`, slicing, `in`, whitespace `split`) are
modelled as functions on `String` that operate on the underlying
character list.  Effects (the interactive confirmation prompt, the
subprocess launcher, the pickle/file system layer) are modelled as
explicit oracle parameters so that every function stays pure and
executable.
-/

/-! ## Python string primitives -/

/-- Python `s.lower()` (character-wise lowercasing). -/
def pyLower (s : String) : String :=
  String.mk (s.data.map Char.toLower)

/-- Characters dropped by Python `str.strip()` from both ends. -/
def stripChars (l : List Char) : List Char :=
  ((l.dropWhile Char.isWhitespace).reverse.dropWhile Char.isWhitespace).reverse

/-- Python `s.strip()`: remove leading and trailing whitespace. -/
def pyStrip (s : String) : String :=
  String.mk (stripChars s.data)

/-- Python `s.startswith(p)`. -/
def pyStartsWith (s p : String) : Bool :=
  p.data.isPrefixOf s.data

/-- Python `sub in s` (substring containment). -/
def pyContains (s sub : String) : Bool :=
  decide (sub.data <:+: s.data)

/-- Python `s[:n]` (slice of the first `n` code points). -/
def pySlice (s : String) (n : Nat) : String :=
  String.mk (s.data.take n)

/-- Accumulator recursion behind `pySplitWS`; `acc` holds the current
word reversed. -/
def splitWSAux : List Char → List Char → List String
  | [], acc => if acc = [] then [] else [String.mk acc.reverse]
  | c :: rest, acc =>
    if c.isWhitespace then
      if acc = [] then splitWSAux rest []
      else String.mk acc.reverse :: splitWSAux rest []
    else splitWSAux rest (c :: acc)

/-- Python `s.split()`: split on whitespace runs, dropping empty pieces. -/
def pySplitWS (s : String) : List String :=
  splitWSAux s.data []

/-! ## Execution gateway (`agent/dynamic_tools.py`, `_execute_command`)

The subprocess layer is modelled by an oracle `run` mapping the argv
list to the outcome of `subprocess.run` (a completed process with
captured streams, `FileNotFoundError`, `subprocess.TimeoutExpired`
at the 30-second bound, or any other exception).  The interactive
confirmation source is modelled by `confirmReply`; `none` models a
closed input source (`EOFError` from `input`). -/

/-- Outcome of one `subprocess.run` invocation with `timeout=30`. -/
inductive RunOutcome where
  | completed (stdout stderr : String)
  | notFound
  | timedOut
  | err (msg : String)
deriving DecidableEq

/-- The effectful environment `_execute_command` runs in. -/
structure ExecEnv where
  confirmReply : Option String
  run : List String → RunOutcome

/-- Result of `_execute_command`: the returned text, plus whether the
gateway reached the `subprocess.run` call (an execution attempt). -/
structure ExecResult where
  output : String
  attempted : Bool
deriving DecidableEq

/-- `DANGEROUS_COMMANDS` from `dynamic_tools.py`. -/
def DANGEROUS_COMMANDS : List String :=
  ["rm", "del", "erase", "format", "mkfs", "dd", "mv", "move", "rd",
   "rmdir", "remove-item", "clear-disk"]

/-- `human_in_the_loop_confirmation`: read a reply, lowercase and strip
it, and accept exactly `"yes"`; a closed input source (EOF) refuses. -/
def human_in_the_loop_confirmation (env : ExecEnv) : Bool :=
  match env.confirmReply with
  | none => false
  | some reply => pyStrip (pyLower reply) = "yes"

/-- `_execute_command` from `dynamic_tools.py`. -/
def _execute_command (env : ExecEnv) (command_name0 args : String) : ExecResult :=
  let command_name := pyStrip (pyLower command_name0)
  if command_name = "sudo" ∨ (args ≠ "" ∧ pyStartsWith (pyStrip args) "sudo" = true) then
    ⟨"Error: sudo access is strictly forbidden.", false⟩
  else if command_name ∈ DANGEROUS_COMMANDS ∧ human_in_the_loop_confirmation env = false then
    ⟨"Execution cancelled by user.", false⟩
  else
    let full_command_list := command_name :: pySplitWS args
    match env.run full_command_list with
    | RunOutcome.completed out errS =>
      let output :=
        (if out ≠ "" then "STDOUT:\n" ++ out ++ "\n" else "") ++
        (if errS ≠ "" then "STDERR:\n" ++ errS ++ "\n" else "")
      ⟨if output = "" then "Command executed successfully with no output." else output, true⟩
    | RunOutcome.notFound =>
      ⟨"Error: Command '" ++ command_name ++ "' not found.", true⟩
    | RunOutcome.timedOut =>
      ⟨"Error: Command timed out after 30 seconds.", true⟩
    | RunOutcome.err m =>
      ⟨"An unexpected error occurred: " ++ m, true⟩

/-! ## Capability scanner (`load_system_command_tools`) -/

/-- `MAX_TOOLS_TO_CREATE` from `dynamic_tools.py`. -/
def MAX_TOOLS_TO_CREATE : Nat := 2000

/-- `MAX_HELP_TEXT_LENGTH` from `dynamic_tools.py`. -/
def MAX_HELP_TEXT_LENGTH : Nat := 30000

/-- `essential_commands` from `load_system_command_tools`. -/
def essential_commands : List String :=
  ["mkdir", "mv", "cp", "rm", "ls", "cd", "pwd", "cat", "touch"]

/-- The help-text truncation step of `load_system_command_tools`. -/
def truncate_help (help_text : String) : String :=
  if help_text.length > MAX_HELP_TEXT_LENGTH then
    pySlice help_text MAX_HELP_TEXT_LENGTH ++ "\n... (description truncated)"
  else
    help_text

/-- The f-string building a tool description in `load_system_command_tools`. -/
def tool_description (command help_text : String) : String :=
  "Executes the '" ++ command ++ "' command. Its help page is:\n---\n" ++ help_text

/-- A langchain `Tool` as far as the registry is concerned. -/
structure CmdTool where
  name : String
  description : String
deriving DecidableEq

/-- One iteration of the tool-creation loop of `load_system_command_tools`:
truncate the raw help text, fall back to a generic description for
essential commands without help, skip other commands without help. -/
def build_tool (command raw_help : String) : Option CmdTool :=
  let help_text := truncate_help raw_help
  if help_text = "" ∨ pyContains help_text "No help page found" = true then
    if command ∈ essential_commands then
      some ⟨command, tool_description command ("Essential file system command: " ++ command)⟩
    else
      none
  else
    some ⟨command, tool_description command help_text⟩

/-- The essential commands present among the candidates
(`essential_found` in `load_system_command_tools`). -/
def essential_found (valid_cmds : List String) : List String :=
  essential_commands.filter (fun c => decide (c ∈ valid_cmds))

/-- The non-essential candidates (`other_cmds` in `load_system_command_tools`). -/
def other_cmds (valid_cmds : List String) : List String :=
  valid_cmds.filter (fun c => decide (c ∉ essential_commands))

/-- The ceiling-enforcement step of `load_system_command_tools`
(lines 245–265).  `random.sample` is modelled by the oracle `sample`;
`random.sample(population, n)` requires `n ≤ population.length` and the
call site guarantees it via `min`. -/
def enforce_ceiling (sample : List String → Nat → List String)
    (valid_cmds : List String) : List String :=
  if valid_cmds.length > MAX_TOOLS_TO_CREATE then
    let ess := essential_found valid_cmds
    let others := other_cmds valid_cmds
    let remaining_slots := MAX_TOOLS_TO_CREATE - ess.length
    if remaining_slots > 0 then
      ess ++ sample others (min remaining_slots others.length)
    else
      ess.take MAX_TOOLS_TO_CREATE
  else
    valid_cmds

/-! ## Semantic index adapter (`agent_core.py`, `MilvusStoreWrapper`)

A Python value reaching `search` is modelled by `PyVal`: a string, an
int, a tuple/list (with the text its `str()` would produce), or any
other object, carrying an optional `query` attribute and its `str()`
text. -/

/-- A Python value as far as `MilvusStoreWrapper.search` inspects it. -/
inductive PyVal where
  | pstr (s : String)
  | pint (n : Int)
  | pseq (elems : List PyVal) (reprText : String)
  | pobj (queryAttr : Option PyVal) (reprText : String)

/-- Python `str(v)`. -/
def pyStr : PyVal → String
  | PyVal.pstr s => s
  | PyVal.pint n => toString n
  | PyVal.pseq _ r => r
  | PyVal.pobj _ r => r

/-- Query extraction from the first positional argument
(`search`, lines 52–61): a string is used as is; a non-empty
tuple/list contributes `str` of its first element; an object with a
`query` attribute contributes `str` of that attribute; anything else is
stringified. -/
def query_from_first_arg : PyVal → String
  | PyVal.pstr s => s
  | PyVal.pseq (x :: _) _ => pyStr x
  | PyVal.pseq [] r => r
  | PyVal.pobj (some q) _ => pyStr q
  | PyVal.pobj none r => r
  | PyVal.pint n => toString n

/-- Keyword arguments inspected by `MilvusStoreWrapper.search`. -/
structure SearchKwargs where
  query : Option PyVal
  k : Option PyVal
  limit : Option PyVal

/-- The call-normalization part of `MilvusStoreWrapper.search`
(lines 48–75): resolve the query string and the result count `k` from
the positional and keyword arguments. -/
def search_normalize (args : List PyVal) (kw : SearchKwargs) : Option String × Int :=
  let qk : Option String × Int :=
    match args with
    | [] => (none, 5)
    | a :: rest =>
      (some (query_from_first_arg a),
        match rest with
        | [] => 5
        | b :: _ => match b with | PyVal.pint n => n | _ => 5)
  let q :=
    match kw.query with
    | some v => some (pyStr v)
    | none => qk.1
  let k :=
    match kw.k with
    | some (PyVal.pint n) => n
    | some _ => 5
    | none =>
      match kw.limit with
      | some (PyVal.pint n) => max (n * 3) 10
      | some _ => 10
      | none => qk.2
  (q, k)

/-- A search hit (`SearchResult` in `agent_core.py`); scores are kept
polymorphic since the wrapper never inspects them. -/
structure SearchHit (α : Type) where
  key : String
  score : α
deriving DecidableEq

/-- `MilvusStoreWrapper.search`: normalize the call, return `[]` when no
usable query resolves, delegate to the vector backend (modelled by the
oracle `backend`, whose `Except.error` case covers any exception raised
by the similarity search), and return `[]` on backend failure. -/
def milvus_search {α : Type} (backend : String → Int → Except String (List (String × α)))
    (args : List PyVal) (kw : SearchKwargs) : List (SearchHit α) :=
  let qk := search_normalize args kw
  match qk.1 with
  | none => []
  | some q =>
    if q = "" then []
    else
      match backend q qk.2 with
      | Except.error _ => []
      | Except.ok rs => rs.map (fun p => ⟨p.1, p.2⟩)

/-! ## Registry cache (`agent_core.py`, lines 153–236)

The pickle layer and the file system are modelled explicitly: a cache
file is either zero-length or has contents that deserialize to a value
(`parsed`), fail with the exception classes the loader names
(`pickle.PickleError`/`EOFError`, constructor `unpicklingError`), or
fail with any other exception (e.g. an `AttributeError` raised while
unpickling data that references a missing class), constructor
`otherException`.  A registry entry is a tool whose `name` and
`description` attributes may be absent.  `os.remove`/file writes are
modelled as succeeding unless a failure flag says otherwise. -/

/-- A registry entry as validated by the loader. -/
structure PyTool where
  nameAttr : Option String
  descriptionAttr : Option String
deriving DecidableEq

/-- The value a cache file deserializes to: a dict or something else. -/
inductive PickledVal where
  | dict (entries : List (String × PyTool))
  | nonDict
deriving DecidableEq

/-- What happens when the loader opens and unpickles the cache file. -/
inductive ParseOutcome where
  | parsed (v : PickledVal)
  | unpicklingError
  | otherException
deriving DecidableEq

/-- A present cache file: zero-length, or contents with a parse outcome. -/
inductive CacheFile where
  | emptyFile
  | content (p : ParseOutcome)
deriving DecidableEq

/-- Entry validation performed by `load_tool_registry_from_cache`:
both the `name` and `description` attributes must be present. -/
def tool_is_valid (t : PyTool) : Bool :=
  t.nameAttr.isSome && t.descriptionAttr.isSome

/-- `load_tool_registry_from_cache`: returns the loaded registry (or
`none`) together with the cache file left on disk afterwards.  A
zero-length file and the named exception classes
(`pickle.PickleError`, `EOFError`, `ValueError` from validation) delete
the file; the final generic `except Exception` handler returns `none`
without deleting. -/
def load_tool_registry_from_cache (c : Option CacheFile) :
    Option (List (String × PyTool)) × Option CacheFile :=
  match c with
  | none => (none, none)
  | some CacheFile.emptyFile => (none, none)
  | some (CacheFile.content ParseOutcome.unpicklingError) => (none, none)
  | some (CacheFile.content ParseOutcome.otherException) =>
    (none, some (CacheFile.content ParseOutcome.otherException))
  | some (CacheFile.content (ParseOutcome.parsed PickledVal.nonDict)) => (none, none)
  | some (CacheFile.content (ParseOutcome.parsed (PickledVal.dict reg))) =>
    if reg.isEmpty then (none, none)
    else if reg.all (fun e => tool_is_valid e.2) then
      (some reg, some (CacheFile.content (ParseOutcome.parsed (PickledVal.dict reg))))
    else (none, none)

/-- The two file paths touched by `save_tool_registry_to_cache`. -/
structure CacheState where
  cache : Option CacheFile
  backup : Option CacheFile
deriving DecidableEq

/-- Failure injection for `save_tool_registry_to_cache`: whether the
rename-to-backup, the `open(..., "wb")` (which truncates the file), the
`pickle.dump`, the backup removal, and the restoring rename succeed. -/
structure SaveEnv where
  renameOk : Bool
  openOk : Bool
  dumpOk : Bool
  removeOk : Bool
  restoreOk : Bool

/-- `save_tool_registry_to_cache`: rename any existing cache to the
backup path (failure silently ignored), write the new cache (a failed
`open` leaves the file as it was, a failed `dump` after a successful
`open` leaves a truncated zero-length file), restore the backup on
write failure, and remove the backup on success.  A successfully
written cache deserializes back to the same entries (pickle is
faithful on these values). -/
def save_tool_registry_to_cache (fs : SaveEnv) (reg : List (String × PyTool))
    (s : CacheState) : Bool × CacheState :=
  let s1 := if s.cache.isSome && fs.renameOk then CacheState.mk none s.cache else s
  if fs.openOk && fs.dumpOk then
    let s2 := CacheState.mk
      (some (CacheFile.content (ParseOutcome.parsed (PickledVal.dict reg)))) s1.backup
    if s2.backup.isSome && fs.removeOk then (true, CacheState.mk s2.cache none)
    else (true, s2)
  else
    let s2 := if fs.openOk then CacheState.mk (some CacheFile.emptyFile) s1.backup else s1
    if s2.backup.isSome && fs.restoreOk then (false, CacheState.mk s2.backup none)
    else (false, s2)

/-! ## Helper lemmas -/

theorem pyStartsWith_empty_left (p : String) (h : p ≠ "") : pyStartsWith "" p = false := by
  cases p with
  | mk data =>
    cases data with
    | nil => exact absurd rfl h
    | cons c cs => rfl

theorem dropWhile_append_exists {α : Type} (p : α → Bool) (l₁ l₂ : List α)
    (h : l₂.dropWhile p = l₂) : ∃ r, (l₁ ++ l₂).dropWhile p = r ++ l₂ := by
  rw [List.dropWhile_append]
  by_cases he : (l₁.dropWhile p).isEmpty = true
  · exact ⟨[], by rw [if_pos he, h, List.nil_append]⟩
  · exact ⟨l₁.dropWhile p, by rw [if_neg he]⟩

theorem sudo_prefix_strip (args : String) (h : pyStartsWith args "sudo" = true) :
    pyStartsWith (pyStrip args) "sudo" = true := by
  have hpre : ("sudo" : String).data <+: args.data := by
    have := List.isPrefixOf_iff_prefix.mp h
    exact this
  obtain ⟨t, ht⟩ := hpre
  have hdata : args.data = 's' :: 'u' :: 'd' :: 'o' :: t := by
    rw [← ht]; rfl
  have h1 : (args.data).dropWhile Char.isWhitespace = 's' :: 'u' :: 'd' :: 'o' :: t := by
    rw [hdata, List.dropWhile_cons]
    simp only [show Char.isWhitespace 's' = false from rfl, Bool.false_eq_true, if_false]
  have h2 : ('s' :: 'u' :: 'd' :: 'o' :: t).reverse = t.reverse ++ ['o', 'd', 'u', 's'] := by
    have : ('s' :: 'u' :: 'd' :: 'o' :: t) = ['s', 'u', 'd', 'o'] ++ t := rfl
    rw [this, List.reverse_append]; rfl
  obtain ⟨r, hr⟩ := dropWhile_append_exists Char.isWhitespace t.reverse ['o', 'd', 'u', 's'] rfl
  have h3 : stripChars args.data = 's' :: 'u' :: 'd' :: 'o' :: r.reverse := by
    unfold stripChars
    rw [h1, h2, hr, List.reverse_append]
    rfl
  show (("sudo" : String).data).isPrefixOf (pyStrip args).data = true
  rw [List.isPrefixOf_iff_prefix]
  show ("sudo" : String).data <+: (String.mk (stripChars args.data)).data
  rw [show (String.mk (stripChars args.data)).data = stripChars args.data from rfl, h3]
  exact ⟨r.reverse, rfl⟩

theorem startsWith_sudo_ne_empty (args : String)
    (h : pyStartsWith (pyStrip args) "sudo" = true) : args ≠ "" := by
  intro he
  subst he
  exact absurd h (by decide)

/-! ## Claims about the execution gateway -/

/-- C1: if the capability name lowercases and trims to the
privilege-elevation command `sudo`, or the argument string begins with
`sudo`, then `_execute_command` returns the fixed rejection string
`"Error: sudo access is strictly forbidden."` and never reaches the
`subprocess.run` call (no child process is spawned). -/
theorem C1_sudo_elevation_block (env : ExecEnv) (name args : String)
    (h : pyStrip (pyLower name) = "sudo" ∨ pyStartsWith args "sudo" = true) :
    _execute_command env name args = ⟨"Error: sudo access is strictly forbidden.", false⟩ := by
  unfold _execute_command
  rcases h with h | h
  · rw [if_pos (Or.inl h)]
  · have hs : pyStartsWith (pyStrip args) "sudo" = true := sudo_prefix_strip args h
    have hne : args ≠ "" := startsWith_sudo_ne_empty args hs
    rw [if_pos (Or.inr ⟨hne, hs⟩)]

/-- Witness for C1: `execute("SUDO ", "ls -la")` is rejected with no
execution attempt. -/
theorem C1_sudo_elevation_block_witness :
    _execute_command ⟨none, fun _ => RunOutcome.notFound⟩ "SUDO " "ls -la" =
      ⟨"Error: sudo access is strictly forbidden.", false⟩ :=
  C1_sudo_elevation_block ⟨none, fun _ => RunOutcome.notFound⟩ "SUDO " "ls -la"
    (Or.inl (by decide))

/-- C10: the elevation check is a string-prefix test on the trimmed
argument string, not a first-token comparison: whenever the trimmed
argument string begins with the character sequence `sudo` — even when
`sudo` is only a prefix of a longer first token such as
`sudoedit /etc/hosts` — `_execute_command` returns the fixed sudo
rejection string without any execution attempt, for every capability
name. -/
theorem C10_sudo_prefix_rejection (env : ExecEnv) (name args : String)
    (h : pyStartsWith (pyStrip args) "sudo" = true) :
    _execute_command env name args = ⟨"Error: sudo access is strictly forbidden.", false⟩ := by
  unfold _execute_command
  rw [if_pos (Or.inr ⟨startsWith_sudo_ne_empty args h, h⟩)]

/-- Witness for C10: `execute("ls", "sudoedit /etc/hosts")` is rejected
even though the first token is `sudoedit`, not `sudo`. -/
theorem C10_sudo_prefix_rejection_witness :
    _execute_command ⟨none, fun _ => RunOutcome.notFound⟩ "ls" "sudoedit /etc/hosts" =
      ⟨"Error: sudo access is strictly forbidden.", false⟩ :=
  C10_sudo_prefix_rejection ⟨none, fun _ => RunOutcome.notFound⟩ "ls" "sudoedit /etc/hosts"
    (by decide)

/-- C2 (counterexample): the claim as stated fails because the
elevation block runs before the confirmation gate: for the
destructive-set command `rm` with an argument string beginning with
`sudo` and a negative confirmation reply available, `_execute_command`
returns the sudo rejection string, not the cancellation string (it
still spawns nothing). -/
theorem C2_counterexample :
    _execute_command ⟨some "no", fun _ => RunOutcome.notFound⟩ "rm" "sudo.txt" =
        ⟨"Error: sudo access is strictly forbidden.", false⟩ ∧
      ("Error: sudo access is strictly forbidden." : String) ≠ "Execution cancelled by user." :=
  ⟨by decide, by decide⟩

/-- C2 (amended): for every command name in the destructive-command
set, provided the trimmed argument string does not begin with `sudo`
(otherwise the elevation rejection is returned first, still without
spawning), if the confirmation reply lowercased and trimmed is anything
other than `yes` — including a closed input source (EOF) — then
`_execute_command` makes no execution attempt and returns the fixed
cancellation string `"Execution cancelled by user."`. -/
theorem C2_destructive_cancellation (env : ExecEnv) (name args : String)
    (h0 : pyStrip (pyLower name) ∈ DANGEROUS_COMMANDS)
    (h1 : pyStartsWith (pyStrip args) "sudo" = false)
    (h2 : human_in_the_loop_confirmation env = false) :
    _execute_command env name args = ⟨"Execution cancelled by user.", false⟩ := by
  unfold _execute_command
  rw [if_neg, if_pos ⟨h0, h2⟩]
  rintro (hs | ⟨-, hs⟩)
  · rw [hs] at h0
    exact absurd h0 (by decide)
  · rw [hs] at h1
    exact absurd h1 (by decide)

/-- Witness for C2 (amended): `execute("rm", "-rf x")` with the reply
`no` is cancelled without an execution attempt. -/
theorem C2_destructive_cancellation_witness :
    _execute_command ⟨some "no", fun _ => RunOutcome.notFound⟩ "rm" "-rf x" =
      ⟨"Execution cancelled by user.", false⟩ :=
  C2_destructive_cancellation ⟨some "no", fun _ => RunOutcome.notFound⟩ "rm" "-rf x"
    (by decide) (by decide) (by decide)

/-- C3: `_execute_command` is a total function into plain result
strings (exceptions cannot cross the gateway boundary in this
embedding), and on the execution path it translates every runtime
fault into a fixed message: a missing executable yields exactly
`"Error: Command '<name>' not found."` (for the normalized name), the
30-second timeout yields the fixed timeout message, and any other
fault yields the generic wrapped message. -/
theorem C3_error_translation (env : ExecEnv) (name args : String)
    (hsudo : ¬ (pyStrip (pyLower name) = "sudo" ∨
      (args ≠ "" ∧ pyStartsWith (pyStrip args) "sudo" = true)))
    (hconf : pyStrip (pyLower name) ∈ DANGEROUS_COMMANDS →
      human_in_the_loop_confirmation env = true) :
    (env.run (pyStrip (pyLower name) :: pySplitWS args) = RunOutcome.notFound →
        (_execute_command env name args).output =
          "Error: Command '" ++ pyStrip (pyLower name) ++ "' not found.") ∧
    (env.run (pyStrip (pyLower name) :: pySplitWS args) = RunOutcome.timedOut →
        (_execute_command env name args).output =
          "Error: Command timed out after 30 seconds.") ∧
    (∀ m, env.run (pyStrip (pyLower name) :: pySplitWS args) = RunOutcome.err m →
        (_execute_command env name args).output = "An unexpected error occurred: " ++ m) := by
  have hgate : ¬ (pyStrip (pyLower name) ∈ DANGEROUS_COMMANDS ∧
      human_in_the_loop_confirmation env = false) := by
    rintro ⟨hm, hc⟩
    rw [hconf hm] at hc
    exact Bool.noConfusion hc
  refine ⟨fun hrun => ?_, fun hrun => ?_, fun m hrun => ?_⟩ <;>
    simp only [_execute_command, if_neg hsudo, if_neg hgate, hrun]

/-- Witness for C3: a harmless command whose executable is missing
yields exactly the not-found message. -/
theorem C3_error_translation_witness :
    (_execute_command ⟨some "yes", fun _ => RunOutcome.notFound⟩ "ls" "").output =
      "Error: Command 'ls' not found." :=
  (C3_error_translation ⟨some "yes", fun _ => RunOutcome.notFound⟩ "ls" ""
    (by decide) (fun h => absurd h (by decide))).1 rfl

/-! ## Claims about the capability scanner -/

theorem str_length_data (s : String) : s.length = s.data.length := rfl

theorem str_length_append (a b : String) : (a ++ b).length = a.length + b.length := by
  rw [str_length_data, show (a ++ b).data = a.data ++ b.data from rfl, List.length_append]
  rfl

theorem tool_description_length (c h : String) :
    (tool_description c h).length = 47 + c.length + h.length := by
  have h1 : ("Executes the '" : String).length = 14 := by decide
  have h2 : ("' command. Its help page is:\n---\n" : String).length = 33 := by decide
  unfold tool_description
  rw [str_length_append, str_length_append, str_length_append, h1, h2]
  omega

theorem pySlice_length (s : String) (n : Nat) :
    (pySlice s n).length = min n s.length := by
  rw [pySlice, str_length_data, show (String.mk (s.data.take n)).data = s.data.take n from rfl,
    List.length_take, str_length_data]

theorem truncate_help_length (raw : String) :
    (truncate_help raw).length ≤ MAX_HELP_TEXT_LENGTH + 28 := by
  have hmax : MAX_HELP_TEXT_LENGTH = 30000 := rfl
  unfold truncate_help
  split
  · rw [str_length_append, pySlice_length]
    have hm : ("\n... (description truncated)" : String).length = 28 := by decide
    have := Nat.min_le_left MAX_HELP_TEXT_LENGTH raw.length
    omega
  · next h => omega

/-- C4 (counterexample): the claim as stated fails.  A help text of
30001 characters is truncated to 30000 characters plus the trailing
marker, and the description wraps it in a fixed header, so the
resulting descriptor's description has length 30077, which exceeds the
configured maximum `MAX_HELP_TEXT_LENGTH = 30000`: the maximum bounds
only the embedded help text, not the whole description. -/
theorem C4_counterexample :
    (build_tool "ls" (String.mk (List.replicate 30001 'a'))).map
        (fun t => t.description.length) = some 30077 ∧
      30077 > MAX_HELP_TEXT_LENGTH := by
  constructor
  · have hlen : (String.mk (List.replicate 30001 'a')).length = 30001 := by
      rw [str_length_data, show (String.mk (List.replicate 30001 'a')).data =
        List.replicate 30001 'a' from rfl, List.length_replicate]
    have hslice : pySlice (String.mk (List.replicate 30001 'a')) MAX_HELP_TEXT_LENGTH =
        String.mk (List.replicate 30000 'a') := by
      rw [pySlice, show (String.mk (List.replicate 30001 'a')).data =
        List.replicate 30001 'a' from rfl, show MAX_HELP_TEXT_LENGTH = 30000 from rfl,
        List.take_replicate, Nat.min_eq_left (by norm_num)]
    have htr : truncate_help (String.mk (List.replicate 30001 'a')) =
        String.mk (List.replicate 30000 'a') ++ "\n... (description truncated)" := by
      unfold truncate_help
      rw [if_pos (by rw [hlen]; decide), hslice]
    have htrlen : (truncate_help (String.mk (List.replicate 30001 'a'))).length = 30028 := by
      rw [htr, str_length_append, str_length_data,
        show (String.mk (List.replicate 30000 'a')).data = List.replicate 30000 'a' from rfl,
        List.length_replicate]
      decide
    have hne : truncate_help (String.mk (List.replicate 30001 'a')) ≠ "" := by
      intro h
      rw [h] at htrlen
      exact absurd htrlen (by decide)
    have hcon : pyContains (truncate_help (String.mk (List.replicate 30001 'a')))
        "No help page found" = false := by
      rw [htr]
      refine decide_eq_false fun hinf => ?_
      have hN : 'N' ∈ ("No help page found" : String).data := by decide
      have hmem := hinf.subset hN
      rw [show (String.mk (List.replicate 30000 'a') ++
        ("\n... (description truncated)" : String)).data =
        List.replicate 30000 'a' ++ ("\n... (description truncated)" : String).data from rfl]
        at hmem
      rcases List.mem_append.mp hmem with h | h
      · exact absurd (List.eq_of_mem_replicate h) (by decide)
      · exact absurd h (by decide)
    simp only [build_tool]
    rw [if_neg (by rintro (h | h); exacts [hne h, by rw [hcon] at h; exact Bool.noConfusion h])]
    show some ((tool_description "ls" (truncate_help (String.mk (List.replicate 30001 'a')))).length) =
      some 30077
    rw [tool_description_length, htrlen]
    decide
  · decide

/-- C4 (amended): for every capability descriptor produced by the
tool-building step, the description length is at most
`MAX_HELP_TEXT_LENGTH + 2 * (name length) + 78`: the configured
maximum bounds the embedded (possibly truncated) help text, and the
fixed description wrapper, the truncation marker, and the synthesized
essential-fallback text add at most this name-dependent constant. -/
theorem C4_description_length_bound (c raw : String) (t : CmdTool)
    (h : build_tool c raw = some t) :
    t.description.length ≤ MAX_HELP_TEXT_LENGTH + 2 * c.length + 78 := by
  have hmax : MAX_HELP_TEXT_LENGTH = 30000 := rfl
  simp only [build_tool] at h
  split at h
  · split at h
    · cases h
      rw [tool_description_length, str_length_append]
      have h31 : ("Essential file system command: " : String).length = 31 := by decide
      omega
    · exact absurd h (by simp)
  · cases h
    rw [tool_description_length]
    have := truncate_help_length raw
    omega

/-- Witness for C4 (amended): the descriptor built for `ls` from the
help text `hello` satisfies the bound. -/
theorem C4_description_length_bound_witness :
    (tool_description "ls" "hello").length ≤
      MAX_HELP_TEXT_LENGTH + 2 * ("ls" : String).length + 78 :=
  C4_description_length_bound "ls" "hello" ⟨"ls", tool_description "ls" "hello"⟩ (by decide)

theorem length_filter_add_length_filter_not {α : Type} (l : List α) (p : α → Bool) :
    (l.filter p).length + (l.filter (fun a => !(p a))).length = l.length := by
  induction l with
  | nil => rfl
  | cons a t ih =>
    simp only [List.filter_cons]
    by_cases h : p a = true
    · rw [if_pos h, if_neg (by simp [h])]
      simp only [List.length_cons]
      omega
    · rw [if_neg h, if_pos (by simp [h])]
      simp only [List.length_cons]
      omega

theorem length_filter_mem_comm (l₁ l₂ : List String) (h₁ : l₁.Nodup) (h₂ : l₂.Nodup) :
    (l₁.filter (fun c => decide (c ∈ l₂))).length =
      (l₂.filter (fun c => decide (c ∈ l₁))).length := by
  classical
  have e1 : (l₁.filter (fun c => decide (c ∈ l₂))).toFinset = l₁.toFinset ∩ l₂.toFinset := by
    ext x
    simp [List.mem_toFinset, List.mem_filter, Finset.mem_inter]
  have e2 : (l₂.filter (fun c => decide (c ∈ l₁))).toFinset = l₂.toFinset ∩ l₁.toFinset := by
    ext x
    simp [List.mem_toFinset, List.mem_filter, Finset.mem_inter]
  rw [← List.toFinset_card_of_nodup (h₁.filter _), ← List.toFinset_card_of_nodup (h₂.filter _),
    e1, e2, Finset.inter_comm]

/-- C5: whenever the candidate count exceeds the ceiling
`MAX_TOOLS_TO_CREATE` and fewer essential commands are present than the
ceiling, the final candidate set after ceiling enforcement has size
exactly the ceiling, contains every essential command present among
the candidates, and consists of the present essential commands plus a
sample drawn from the non-essential candidates.  The sampling oracle
is only assumed to return as many elements as requested (which
`random.sample` guarantees); `valid_cmds` is duplicate-free, as the
scanner builds it from a set and appends essentials only when
absent. -/
theorem C5_ceiling_enforcement (sample : List String → Nat → List String)
    (valid_cmds : List String) (hnd : valid_cmds.Nodup)
    (hover : valid_cmds.length > MAX_TOOLS_TO_CREATE)
    (hess : (essential_found valid_cmds).length < MAX_TOOLS_TO_CREATE)
    (hsample : ∀ l n, n ≤ l.length → (sample l n).length = n) :
    (enforce_ceiling sample valid_cmds).length = MAX_TOOLS_TO_CREATE ∧
    (∀ c ∈ essential_commands, c ∈ valid_cmds → c ∈ enforce_ceiling sample valid_cmds) ∧
    enforce_ceiling sample valid_cmds =
      essential_found valid_cmds ++
        sample (other_cmds valid_cmds)
          (MAX_TOOLS_TO_CREATE - (essential_found valid_cmds).length) := by
  have hnde : essential_commands.Nodup := by decide
  have hcount : (valid_cmds.filter (fun c => decide (c ∈ essential_commands))).length =
      (essential_found valid_cmds).length :=
    length_filter_mem_comm valid_cmds essential_commands hnd hnde
  have hsum : (valid_cmds.filter (fun c => decide (c ∈ essential_commands))).length +
      (other_cmds valid_cmds).length = valid_cmds.length := by
    have hpt : ∀ c : String,
        (decide (c ∉ essential_commands)) = !(decide (c ∈ essential_commands)) := by
      intro c
      exact decide_not
    unfold other_cmds
    rw [List.filter_congr (fun c _ => hpt c)]
    exact length_filter_add_length_filter_not valid_cmds _
  have hothers : MAX_TOOLS_TO_CREATE - (essential_found valid_cmds).length ≤
      (other_cmds valid_cmds).length := by
    omega
  have hmin : min (MAX_TOOLS_TO_CREATE - (essential_found valid_cmds).length)
      (other_cmds valid_cmds).length =
      MAX_TOOLS_TO_CREATE - (essential_found valid_cmds).length :=
    Nat.min_eq_left hothers
  have hres : enforce_ceiling sample valid_cmds =
      essential_found valid_cmds ++
        sample (other_cmds valid_cmds)
          (MAX_TOOLS_TO_CREATE - (essential_found valid_cmds).length) := by
    unfold enforce_ceiling
    rw [if_pos hover, if_pos (Nat.sub_pos_of_lt hess), hmin]
  refine ⟨?_, ?_, hres⟩
  · rw [hres, List.length_append, hsample _ _ hothers]
    omega
  · intro c hc hv
    rw [hres]
    exact List.mem_append_left _ (List.mem_filter.mpr ⟨hc, decide_eq_true hv⟩)

/-- Witness for C5: 2001 duplicate-free candidates (the nine essential
commands plus 1992 synthetic names) with a take-based sampler yield a
final set of exactly `MAX_TOOLS_TO_CREATE = 2000` commands. -/
theorem C5_ceiling_enforcement_witness :
    (enforce_ceiling (fun l n => l.take n)
      (essential_commands ++
        (List.range 1992).map (fun n => String.mk (List.replicate (n + 1) 'x')))).length =
      MAX_TOOLS_TO_CREATE := by
  have hinj : Function.Injective (fun n => String.mk (List.replicate (n + 1) 'x')) := by
    intro a b h
    have hd : List.replicate (a + 1) 'x' = List.replicate (b + 1) 'x' :=
      congrArg String.data h
    have := congrArg List.length hd
    rw [List.length_replicate, List.length_replicate] at this
    omega
  have hbig : ((List.range 1992).map
      (fun n => String.mk (List.replicate (n + 1) 'x'))).Nodup :=
    (List.nodup_range 1992).map hinj
  have hdisj : essential_commands.Disjoint
      ((List.range 1992).map (fun n => String.mk (List.replicate (n + 1) 'x'))) := by
    intro c hc hcb
    obtain ⟨n, -, hfc⟩ := List.mem_map.mp hcb
    have hallx : ∀ ch ∈ c.data, ch = 'x' := by
      intro ch hch
      rw [← hfc] at hch
      exact List.eq_of_mem_replicate hch
    have hnotx : ∀ s ∈ essential_commands, ∃ ch ∈ s.data, ch ≠ 'x' := by decide
    obtain ⟨ch, hch, hne⟩ := hnotx c hc
    exact hne (hallx ch hch)
  have hnd : (essential_commands ++
      (List.range 1992).map (fun n => String.mk (List.replicate (n + 1) 'x'))).Nodup :=
    List.nodup_append.mpr ⟨by decide, hbig, hdisj⟩
  have hlen : (essential_commands ++
      (List.range 1992).map (fun n => String.mk (List.replicate (n + 1) 'x'))).length = 2001 := by
    rw [List.length_append, List.length_map, List.length_range]
    rfl
  have hover : (essential_commands ++
      (List.range 1992).map (fun n => String.mk (List.replicate (n + 1) 'x'))).length >
      MAX_TOOLS_TO_CREATE := by
    rw [hlen]
    decide
  have hessfull : essential_found (essential_commands ++
      (List.range 1992).map (fun n => String.mk (List.replicate (n + 1) 'x'))) =
      essential_commands := by
    apply List.filter_eq_self.mpr
    intro c hc
    exact decide_eq_true (List.mem_append_left _ hc)
  have hess : (essential_found (essential_commands ++
      (List.range 1992).map (fun n => String.mk (List.replicate (n + 1) 'x')))).length <
      MAX_TOOLS_TO_CREATE := by
    rw [hessfull]
    decide
  have hsample : ∀ (l : List String) (n : Nat), n ≤ l.length → (l.take n).length = n := by
    intro l n h
    rw [List.length_take]
    exact Nat.min_eq_left h
  exact (C5_ceiling_enforcement (fun l n => l.take n) _ hnd hover hess hsample).1

/-! ## Claims about the semantic index adapter -/

/-- C6 (counterexample): the claim as stated fails: the result count
does not default to 5 whenever both the `k` and `limit` keywords are
absent, because a second positional integer argument also sets the
count.  Calling `search("q", 7)` yields count 7, not 5. -/
theorem C6_counterexample :
    (search_normalize [PyVal.pstr "q", PyVal.pint 7] ⟨none, none, none⟩).2 = 7 ∧
      (7 : Int) ≠ 5 :=
  ⟨by decide, by decide⟩

/-- C6 (amended): the search-call normalization resolves the query
from an explicit `query` keyword first, else from the positional first
argument (unwrapping a non-empty sequence or a `query`-attribute
object, else stringifying); it resolves the result count from an
integer `k` keyword first, else from an integer `limit` keyword as
`max(limit * 3, 10)`, else — when at most one positional argument is
supplied — defaults to 5 (a second positional integer argument sets
the count instead).  In particular `{"limit": 4}` yields count 12 and
a positional one-element tuple `("disk usage",)` yields query
`disk usage` with count 5. -/
theorem C6_search_normalization (args : List PyVal) (kw : SearchKwargs) :
    (∀ v, kw.query = some v → (search_normalize args kw).1 = some (pyStr v)) ∧
    (kw.query = none → ∀ a rest, args = a :: rest →
      (search_normalize args kw).1 = some (query_from_first_arg a)) ∧
    (∀ n, kw.k = some (PyVal.pint n) → (search_normalize args kw).2 = n) ∧
    (kw.k = none → ∀ n, kw.limit = some (PyVal.pint n) →
      (search_normalize args kw).2 = max (n * 3) 10) ∧
    (kw.k = none → kw.limit = none → args.length ≤ 1 →
      (search_normalize args kw).2 = 5) ∧
    (search_normalize [] ⟨none, none, some (PyVal.pint 4)⟩).2 = 12 ∧
    search_normalize [PyVal.pseq [PyVal.pstr "disk usage"] "('disk usage',)"]
        ⟨none, none, none⟩ = (some "disk usage", 5) := by
  refine ⟨fun v hv => ?_, fun hq a rest ha => ?_, fun n hk => ?_, fun hk n hl => ?_,
    fun hk hl hlen => ?_, by decide, by decide⟩
  · simp [search_normalize, hv]
  · simp [search_normalize, hq, ha]
  · simp [search_normalize, hk]
  · simp [search_normalize, hk, hl]
  · match args with
    | [] => simp [search_normalize, hk, hl]
    | [a] => simp [search_normalize, hk, hl]
    | a :: b :: rest => simp at hlen

/-- Witness for C6 (amended): an integer `k` keyword of 7 resolves the
count to 7. -/
theorem C6_search_normalization_witness :
    (search_normalize [] ⟨none, some (PyVal.pint 7), none⟩).2 = 7 :=
  (C6_search_normalization [] ⟨none, some (PyVal.pint 7), none⟩).2.2.1 7 rfl

/-- C7: `search` returns an empty result sequence — rather than
raising or returning an error value — both when no usable query string
resolves from the call (no query at all, or an empty query string) and
when the backend nearest-neighbor lookup fails for any reason; the
three cases produce the same `[]`, indistinguishable to the caller. -/
theorem C7_search_degrades_to_empty {α : Type}
    (backend : String → Int → Except String (List (String × α)))
    (args : List PyVal) (kw : SearchKwargs) :
    ((search_normalize args kw).1 = none → milvus_search backend args kw = []) ∧
    ((search_normalize args kw).1 = some "" → milvus_search backend args kw = []) ∧
    (∀ q m, (search_normalize args kw).1 = some q → q ≠ "" →
      backend q (search_normalize args kw).2 = Except.error m →
      milvus_search backend args kw = []) := by
  refine ⟨fun h => ?_, fun h => ?_, fun q m hq hne hb => ?_⟩
  · simp [milvus_search, h]
  · simp [milvus_search, h]
  · simp [milvus_search, hq, hne, hb]

/-- Witness for C7: a backend that always fails with a connection
error yields the empty result for a well-formed query. -/
theorem C7_search_degrades_to_empty_witness :
    milvus_search
      (fun _ _ => (Except.error "connection refused" : Except String (List (String × Nat))))
      [PyVal.pstr "disk"] ⟨none, none, none⟩ = [] :=
  (C7_search_degrades_to_empty
      (fun _ _ => (Except.error "connection refused" : Except String (List (String × Nat))))
      [PyVal.pstr "disk"] ⟨none, none, none⟩).2.2
    "disk" "connection refused" rfl (by decide) rfl

/-! ## Claims about the registry cache -/

/-- C8 (counterexample): the claim as stated fails: a deserialization
failure raised as an exception outside the classes the loader names
(`pickle.PickleError`, `EOFError`) — e.g. an `AttributeError` while
unpickling data that references a missing class — reaches the generic
handler, which returns absent but does NOT delete the corrupt file. -/
theorem C8_counterexample :
    (load_tool_registry_from_cache (some (CacheFile.content ParseOutcome.otherException))).1 =
        none ∧
      (load_tool_registry_from_cache (some (CacheFile.content ParseOutcome.otherException))).2 ≠
        none :=
  ⟨rfl, by decide⟩

/-- C8 (amended): `load()` never signals an error — every input maps
to absent or a loaded registry.  A zero-length cache file is treated
as absent and deleted; an unpickling failure of the named exception
classes (`pickle.PickleError`/`EOFError`) and every structural
validation failure (not a mapping, zero entries, an entry missing the
name or description field) delete the file and return absent; any
other unexpected exception returns absent but leaves the file in
place. -/
theorem C8_load_never_errors (c : Option CacheFile) :
    (c = some CacheFile.emptyFile → load_tool_registry_from_cache c = (none, none)) ∧
    (c = some (CacheFile.content ParseOutcome.unpicklingError) →
      load_tool_registry_from_cache c = (none, none)) ∧
    (c = some (CacheFile.content (ParseOutcome.parsed PickledVal.nonDict)) →
      load_tool_registry_from_cache c = (none, none)) ∧
    (∀ reg, c = some (CacheFile.content (ParseOutcome.parsed (PickledVal.dict reg))) →
      (reg = [] ∨ ¬ reg.all (fun e => tool_is_valid e.2) = true) →
      load_tool_registry_from_cache c = (none, none)) ∧
    (c = some (CacheFile.content ParseOutcome.otherException) →
      load_tool_registry_from_cache c = (none, c)) ∧
    ((load_tool_registry_from_cache c).1 = none ∨
      ∃ reg, c = some (CacheFile.content (ParseOutcome.parsed (PickledVal.dict reg))) ∧
        (load_tool_registry_from_cache c).1 = some reg) := by
  refine ⟨fun h => by rw [h]; rfl, fun h => by rw [h]; rfl, fun h => by rw [h]; rfl,
    fun reg h hbad => ?_, fun h => by rw [h]; rfl, ?_⟩
  · rw [h]
    rcases hbad with rfl | hall
    · rfl
    · by_cases he : reg.isEmpty = true
      · simp [load_tool_registry_from_cache, he]
      · simp [load_tool_registry_from_cache, he, hall]
  · match c with
    | none => exact Or.inl rfl
    | some CacheFile.emptyFile => exact Or.inl rfl
    | some (CacheFile.content ParseOutcome.unpicklingError) => exact Or.inl rfl
    | some (CacheFile.content ParseOutcome.otherException) => exact Or.inl rfl
    | some (CacheFile.content (ParseOutcome.parsed PickledVal.nonDict)) => exact Or.inl rfl
    | some (CacheFile.content (ParseOutcome.parsed (PickledVal.dict reg))) =>
      by_cases he : reg.isEmpty = true
      · exact Or.inl (by simp [load_tool_registry_from_cache, he])
      · by_cases ha : reg.all (fun e => tool_is_valid e.2) = true
        · exact Or.inr ⟨reg, rfl, by simp [load_tool_registry_from_cache, he, ha]⟩
        · exact Or.inl (by simp [load_tool_registry_from_cache, he, ha])

/-- Witness for C8 (amended): a zero-byte cache file loads as absent
and is removed. -/
theorem C8_load_never_errors_witness :
    load_tool_registry_from_cache (some CacheFile.emptyFile) = (none, none) :=
  (C8_load_never_errors (some CacheFile.emptyFile)).1 rfl

/-- C9 (counterexample): the claim as stated fails on two points.
First, the persist/load round trip fails for the empty built registry:
it persists, but loading rejects a zero-entry mapping as corruption
and returns absent.  Second, the backup guarantee fails when the
initial rename-to-backup fails silently and the write then fails after
`open` truncated the file: the prior valid cache is destroyed, no
backup exists, and only a zero-length file remains. -/
theorem C9_counterexample :
    (load_tool_registry_from_cache
        ((save_tool_registry_to_cache ⟨true, true, true, true, true⟩
          ([] : List (String × PyTool)) ⟨none, none⟩).2).cache).1 = none ∧
      (save_tool_registry_to_cache ⟨false, true, false, true, true⟩
          [("id0", ⟨some "ls", some "lists files"⟩)]
          ⟨some (CacheFile.content (ParseOutcome.parsed (PickledVal.dict
            [("id0", ⟨some "ls", some "lists files"⟩)]))), none⟩).2 =
        ⟨some CacheFile.emptyFile, none⟩ :=
  ⟨by decide, by decide⟩

/-- C9 (amended): for every nonempty built registry whose entries all
carry a name and a description, persisting and then loading yields the
identical id→(name, description) entries (round trip).  On a persist
write failure, if a prior cache existed and the rename-to-backup step
succeeded, the prior cache survives: it is restored to the cache path
when the restoring rename succeeds, and otherwise still exists at the
backup path. -/
theorem C9_persist_load_round_trip (fs : SaveEnv) (reg : List (String × PyTool))
    (s : CacheState) (hne : reg ≠ []) (hwf : ∀ e ∈ reg, tool_is_valid e.2 = true) :
    (fs.openOk = true → fs.dumpOk = true →
      (load_tool_registry_from_cache
        ((save_tool_registry_to_cache fs reg s).2).cache).1 = some reg) ∧
    (∀ prior, s.cache = some prior → fs.renameOk = true →
      (fs.openOk = false ∨ fs.dumpOk = false) → fs.restoreOk = true →
      ((save_tool_registry_to_cache fs reg s).2).cache = some prior) ∧
    (∀ prior, s.cache = some prior → fs.renameOk = true →
      (fs.openOk = false ∨ fs.dumpOk = false) → fs.restoreOk = false →
      ((save_tool_registry_to_cache fs reg s).2).backup = some prior) := by
  refine ⟨fun ho hd => ?_, fun prior hp hr hw hrest => ?_, fun prior hp hr hw hrest => ?_⟩
  · have hcache : ((save_tool_registry_to_cache fs reg s).2).cache =
        some (CacheFile.content (ParseOutcome.parsed (PickledVal.dict reg))) := by
      simp only [save_tool_registry_to_cache, ho, hd, Bool.and_self, if_true]
      by_cases hX : ((if s.cache.isSome && fs.renameOk then CacheState.mk none s.cache
          else s).backup.isSome && fs.removeOk) = true
      · rw [if_pos hX]
      · rw [if_neg hX]
    rw [hcache]
    simp only [load_tool_registry_from_cache]
    rw [if_neg (by rw [List.isEmpty_iff]; exact hne),
      if_pos (List.all_eq_true.mpr hwf)]
  · have hfail : (fs.openOk && fs.dumpOk) = false := by
      rcases hw with h | h <;> simp [h]
    simp only [save_tool_registry_to_cache, hp, hr, Option.isSome_some, Bool.and_self,
      if_true, hfail, Bool.false_eq_true, if_false]
    by_cases ho : fs.openOk = true <;>
      simp [ho, hrest]
  · have hfail : (fs.openOk && fs.dumpOk) = false := by
      rcases hw with h | h <;> simp [h]
    simp only [save_tool_registry_to_cache, hp, hr, Option.isSome_some, Bool.and_self,
      if_true, hfail, Bool.false_eq_true, if_false]
    by_cases ho : fs.openOk = true <;>
      simp [ho, hrest]

/-- Witness for C9 (amended): a one-entry registry written with every
step succeeding loads back identically. -/
theorem C9_persist_load_round_trip_witness :
    (load_tool_registry_from_cache
      ((save_tool_registry_to_cache ⟨true, true, true, true, true⟩
        [("id0", ⟨some "ls", some "lists files"⟩)] ⟨none, none⟩).2).cache).1 =
      some [("id0", ⟨some "ls", some "lists files"⟩)] :=
  (C9_persist_load_round_trip ⟨true, true, true, true, true⟩
    [("id0", ⟨some "ls", some "lists files"⟩)] ⟨none, none⟩
    (by decide) (by decide)).1 rfl rfl
